import Mathlib

/-!
Verification development for the `simpler_go_service` repository.

The service layer (`internal/service/service.go`) composes a repository
(PostgreSQL adapter) and a cache (Redis adapter) behind the interfaces of
`internal/ports`.  We embed the service functions shallowly: each backend is
a record of state-passing operations, the service functions thread the two
backend states explicitly, and additionally record the list of backend calls
they perform, so that claims about which backend is (not) invoked are
statable.  Errors are modelled by `GoError`, carrying the rendered message
and whether `errors.Is(e, domain.ErrNotFound)` holds (the only `errors.Is`
test performed by the service layer).
-/

namespace SimplerGo

/-- A Go `error` value as observed by the service layer: its
`Error()` message and whether it wraps `domain.ErrNotFound`. -/
structure GoError where
  message : String
  wrapsNotFound : Bool
  deriving DecidableEq, Repr

/-- Sentinel `domain.ErrNotFound` from `internal/domain/errors.go`. -/
def ErrNotFound : GoError := ⟨"product not found", true⟩

/-- Sentinel `domain.ErrInternalDb` from `internal/domain/errors.go`. -/
def ErrInternalDb : GoError := ⟨"internal database error", false⟩

/-- Sentinel `domain.ErrInternalCache` from `internal/domain/errors.go`. -/
def ErrInternalCache : GoError := ⟨"internal cache error", false⟩

/-- Wrapping `fmt.Errorf("%w: rest", e)`: the wrapped error prints first, the chain
still answers `errors.Is(·, ErrNotFound)` like `e`. -/
def wrapErrAfter (e : GoError) (rest : String) : GoError :=
  ⟨e.message ++ rest, e.wrapsNotFound⟩

/-- Wrapping `fmt.Errorf("pre%w", e)`: a message written before the wrapped error. -/
def wrapErrBefore (pre : String) (e : GoError) : GoError :=
  ⟨pre ++ e.message, e.wrapsNotFound⟩

/-- Struct `domain.Product`. -/
structure Product where
  Id : Int
  Name : String
  AdditionalInfo : String
  deriving DecidableEq, Repr

/-- Struct `domain.NewProduct`. -/
structure NewProduct where
  Name : String
  AdditionalInfo : String
  deriving DecidableEq, Repr

/-- Struct `domain.ServiceError`: at most one critical error plus the ordered list
of non-critical errors. -/
structure ServiceError where
  CriticalError : Option GoError
  NonCriticalErrors : List GoError
  deriving DecidableEq, Repr

/-- One backend invocation made by the service layer. -/
inductive Call where
  | cacheGetJSON (id : Int)
  | cacheSet (p : Product)
  | cacheDelete (id : Int)
  | cacheClear
  | dbGet (id : Int)
  | dbGetAll
  | dbGetPaged (limit offset : Int)
  | dbStore (p : NewProduct)
  | dbUpdate (id : Int) (p : NewProduct)
  | dbDelete (id : Int)
  | dbDeleteAll
  deriving DecidableEq, Repr

/-- The `ports.Cache` interface, as state-passing operations over a cache
state `σ`. -/
structure CacheOps (σ : Type) where
  getJSONProductById : σ → Int → Except GoError String × σ
  setProduct : σ → Product → Option GoError × σ
  deleteProductById : σ → Int → Option GoError × σ
  clearCache : σ → Option GoError × σ

/-- The `ports.Repository` interface, as state-passing operations over a
repository state `σ`. -/
structure RepoOps (σ : Type) where
  getProduct : σ → Int → Except GoError Product × σ
  getAllProducts : σ → Except GoError (List Product) × σ
  getProductsPaged : σ → Int → Int → Except GoError (List Product) × σ
  storeProduct : σ → NewProduct → Except GoError Int × σ
  updateProductById : σ → Int → NewProduct → Except GoError Product × σ
  deleteProductById : σ → Int → Except GoError Product × σ
  deleteAllProducts : σ → Except GoError Int × σ

/-- Result of one service call: the returned value, the returned
`*ServiceError` (`none` = Go `nil`), the two final backend states, and the
ordered list of backend calls performed. -/
structure SvcResult (α σc σr : Type) where
  value : α
  err : Option ServiceError
  cacheState : σc
  repoState : σr
  calls : List Call
  deriving Repr

/-- Appending an optional error to a Go error slice. -/
def appendOpt (l : List GoError) (o : Option GoError) : List GoError :=
  match o with
  | some e => l ++ [e]
  | none => l

namespace ResourseService

variable {σc σr : Type}

/-- Method `ResourseService.GetProductById` (service.go:25-52).  `marshal` stands
for `encoding/json.Marshal`, kept abstract because it is library code whose
contract allows failure. -/
def GetProductById (C : CacheOps σc) (R : RepoOps σr)
    (marshal : Product → Except GoError String)
    (cs : σc) (rs : σr) (id : Int) : SvcResult (Option String) σc σr :=
  match C.getJSONProductById cs id with
  | (.ok cacheRes, cs1) =>
      ⟨some cacheRes, none, cs1, rs, [.cacheGetJSON id]⟩
  | (.error cacheErr, cs1) =>
      match R.getProduct rs id with
      | (.error dbErr, rs1) =>
          ⟨none, some ⟨some dbErr, [cacheErr]⟩, cs1, rs1,
            [.cacheGetJSON id, .dbGet id]⟩
      | (.ok dbRes, rs1) =>
          match C.setProduct cs1 dbRes with
          | (setErr, cs2) =>
              match marshal dbRes with
              | .error e =>
                  let mErr := wrapErrBefore "service layer error: " e
                  ⟨none, some ⟨some mErr, appendOpt [cacheErr] setErr ++ [mErr]⟩,
                    cs2, rs1, [.cacheGetJSON id, .dbGet id, .cacheSet dbRes]⟩
              | .ok res =>
                  if appendOpt [cacheErr] setErr = [] then
                    ⟨some res, none, cs2, rs1,
                      [.cacheGetJSON id, .dbGet id, .cacheSet dbRes]⟩
                  else
                    ⟨some res, some ⟨none, appendOpt [cacheErr] setErr⟩,
                      cs2, rs1, [.cacheGetJSON id, .dbGet id, .cacheSet dbRes]⟩

/-- Method `ResourseService.GetAllProducts` (service.go:54-60). -/
def GetAllProducts (C : CacheOps σc) (R : RepoOps σr)
    (cs : σc) (rs : σr) : SvcResult (Option (List Product)) σc σr :=
  match R.getAllProducts rs with
  | (.error e, rs1) => ⟨none, some ⟨some e, []⟩, cs, rs1, [.dbGetAll]⟩
  | (.ok products, rs1) => ⟨some products, none, cs, rs1, [.dbGetAll]⟩

/-- Method `ResourseService.GetProductsPaged` (service.go:62-69). -/
def GetProductsPaged (C : CacheOps σc) (R : RepoOps σr)
    (cs : σc) (rs : σr) (limit offset : Int) :
    SvcResult (Option (List Product)) σc σr :=
  match R.getProductsPaged rs limit offset with
  | (.error e, rs1) =>
      ⟨none, some ⟨some e, []⟩, cs, rs1, [.dbGetPaged limit offset]⟩
  | (.ok products, rs1) =>
      ⟨some products, none, cs, rs1, [.dbGetPaged limit offset]⟩

/-- Method `ResourseService.CreateProduct` (service.go:71-87). -/
def CreateProduct (C : CacheOps σc) (R : RepoOps σr)
    (cs : σc) (rs : σr) (product : NewProduct) : SvcResult Int σc σr :=
  match R.storeProduct rs product with
  | (.error dbErr, rs1) =>
      ⟨0, some ⟨some dbErr, []⟩, cs, rs1, [.dbStore product]⟩
  | (.ok id, rs1) =>
      let newlyStoredProduct : Product :=
        ⟨id, product.Name, product.AdditionalInfo⟩
      match C.setProduct cs newlyStoredProduct with
      | (some cacheErr, cs1) =>
          ⟨id, some ⟨none, [cacheErr]⟩, cs1, rs1,
            [.dbStore product, .cacheSet newlyStoredProduct]⟩
      | (none, cs1) =>
          ⟨id, none, cs1, rs1,
            [.dbStore product, .cacheSet newlyStoredProduct]⟩

/-- Method `ResourseService.UpdateProductById` (service.go:89-107). -/
def UpdateProductById (C : CacheOps σc) (R : RepoOps σr)
    (cs : σc) (rs : σr) (id : Int) (product : NewProduct) :
    SvcResult (Option Product) σc σr :=
  match C.deleteProductById cs id with
  | (some cacheErr, cs1) =>
      if cacheErr.wrapsNotFound then
        match R.updateProductById rs id product with
        | (.error dbErr, rs1) =>
            ⟨none, some ⟨some dbErr, [cacheErr]⟩, cs1, rs1,
              [.cacheDelete id, .dbUpdate id product]⟩
        | (.ok oldProduct, rs1) =>
            ⟨some oldProduct, some ⟨none, [cacheErr]⟩, cs1, rs1,
              [.cacheDelete id, .dbUpdate id product]⟩
      else
        ⟨none, some ⟨some cacheErr, []⟩, cs1, rs, [.cacheDelete id]⟩
  | (none, cs1) =>
      match R.updateProductById rs id product with
      | (.error dbErr, rs1) =>
          ⟨none, some ⟨some dbErr, []⟩, cs1, rs1,
            [.cacheDelete id, .dbUpdate id product]⟩
      | (.ok oldProduct, rs1) =>
          ⟨some oldProduct, none, cs1, rs1,
            [.cacheDelete id, .dbUpdate id product]⟩

/-- Method `ResourseService.DeleteProductById` (service.go:109-127). -/
def DeleteProductById (C : CacheOps σc) (R : RepoOps σr)
    (cs : σc) (rs : σr) (id : Int) : SvcResult (Option Product) σc σr :=
  match C.deleteProductById cs id with
  | (some cacheErr, cs1) =>
      if cacheErr.wrapsNotFound then
        match R.deleteProductById rs id with
        | (.error dbErr, rs1) =>
            ⟨none, some ⟨some dbErr, [cacheErr]⟩, cs1, rs1,
              [.cacheDelete id, .dbDelete id]⟩
        | (.ok deletedProduct, rs1) =>
            ⟨some deletedProduct, some ⟨none, [cacheErr]⟩, cs1, rs1,
              [.cacheDelete id, .dbDelete id]⟩
      else
        ⟨none, some ⟨some cacheErr, []⟩, cs1, rs, [.cacheDelete id]⟩
  | (none, cs1) =>
      match R.deleteProductById rs id with
      | (.error dbErr, rs1) =>
          ⟨none, some ⟨some dbErr, []⟩, cs1, rs1,
            [.cacheDelete id, .dbDelete id]⟩
      | (.ok deletedProduct, rs1) =>
          ⟨some deletedProduct, none, cs1, rs1,
            [.cacheDelete id, .dbDelete id]⟩

/-- Method `ResourseService.DeleteAllProducts` (service.go:129-140). -/
def DeleteAllProducts (C : CacheOps σc) (R : RepoOps σr)
    (cs : σc) (rs : σr) : SvcResult Int σc σr :=
  match C.clearCache cs with
  | (some cacheErr, cs1) =>
      ⟨0, some ⟨some cacheErr, []⟩, cs1, rs, [.cacheClear]⟩
  | (none, cs1) =>
      match R.deleteAllProducts rs with
      | (.error dbErr, rs1) =>
          ⟨0, some ⟨some dbErr, []⟩, cs1, rs1, [.cacheClear, .dbDeleteAll]⟩
      | (.ok rowsDeleted, rs1) =>
          ⟨rowsDeleted, none, cs1, rs1, [.cacheClear, .dbDeleteAll]⟩

end ResourseService

/-! ## JSON serialization (`encoding/json.Marshal` on `domain.Product`)

The Go `json.Marshal` function emits the struct fields in declaration order
(`id`, `name`, `additionalInfo`) and escapes strings with `\"`, `\\`,
`\n`, `\r`, `\t`, `\u00XX` for other control characters, and `<`,
`>`, `&` for the HTML-sensitive characters. -/

/-- Lower-case hexadecimal digit. -/
def hexDigit (n : Nat) : String :=
  match n with
  | 0 => "0" | 1 => "1" | 2 => "2" | 3 => "3" | 4 => "4"
  | 5 => "5" | 6 => "6" | 7 => "7" | 8 => "8" | 9 => "9"
  | 10 => "a" | 11 => "b" | 12 => "c" | 13 => "d" | 14 => "e"
  | _ => "f"

/-- The escaping `encoding/json` applies to one character inside a Go
string value. -/
def jsonEscapeChar (c : Char) : String :=
  if c = '"' then "\\\""
  else if c = '\\' then "\\\\"
  else if c = '\n' then "\\n"
  else if c = '\r' then "\\r"
  else if c = '\t' then "\\t"
  else if c = '<' then "\\u003c"
  else if c = '>' then "\\u003e"
  else if c = '&' then "\\u0026"
  else if c.toNat < 32 then
    "\\u00" ++ hexDigit (c.toNat / 16) ++ hexDigit (c.toNat % 16)
  else String.singleton c

/-- A JSON string literal for a Go string value. -/
def jsonQuote (s : String) : String :=
  "\"" ++ String.join (s.data.map jsonEscapeChar) ++ "\""

/-- Function `encoding/json.Marshal` on a `domain.Product` value.  On this struct
type (an `int64` and two `string` fields) marshalling never fails in Go. -/
def jsonMarshalProduct (p : Product) : String :=
  "\x7b\"id\":" ++ toString p.Id ++
    ",\"name\":" ++ jsonQuote p.Name ++
    ",\"additionalInfo\":" ++ jsonQuote p.AdditionalInfo ++ "\x7d"

/-- The marshaller the running service uses: `json.Marshal`, which is total
on `domain.Product`. -/
def goMarshal (p : Product) : Except GoError String :=
  .ok (jsonMarshalProduct p)

/-! ## Healthy backend models

`RedisCache` (internal/adapters/cache/redis.go) over an in-memory key/value
map, and `PostgresRepository` (the repository adapter source) over an
ordered row list.  The SQL statements of the adapter are interpreted over
that list: `LIMIT`/`OFFSET` bound and skip rows in store order, `SERIAL`
ids are assigned by an increasing counter, `TRUNCATE` inside the
count-then-truncate transaction removes all rows at once. -/

/-- State of a healthy Redis instance: serialized product stored under the
key `product:<id>`, keyed here by the id. -/
def CacheState : Type := Int → Option String

/-- The empty cache. -/
def emptyCache : CacheState := fun _ => none

/-- Adapter `RedisCache` operating on an in-memory healthy instance.  Mirrors
redis.go: a `GET` miss is a wrapped `ErrNotFound`; `SetProduct` marshals
the product and stores it under `product:<id>`; `DEL` of an absent key
reports a wrapped `ErrNotFound`; `FlushDB` empties the store. -/
def healthyCacheOps : CacheOps CacheState where
  getJSONProductById := fun s id =>
    match s id with
    | some data => (.ok data, s)
    | none =>
        (.error (wrapErrAfter ErrNotFound
          (": failed to find product " ++ toString id ++ " in cache")), s)
  setProduct := fun s p =>
    (none, fun k => if k = p.Id then some (jsonMarshalProduct p) else s k)
  deleteProductById := fun s id =>
    match s id with
    | some _ => (none, fun k => if k = id then none else s k)
    | none =>
        (some (wrapErrAfter ErrNotFound
          (": product with id=" ++ toString id ++ " not found in cache")), s)
  clearCache := fun _ => (none, emptyCache)

/-- State of a healthy PostgreSQL `products` table: the rows in store
order plus the next `SERIAL` id. -/
structure RepoState where
  rows : List Product
  nextId : Int
  deriving Repr

/-- Adapter `PostgresRepository` operating on a healthy in-memory table.  Mirrors
the repository adapter: a row lookup miss is a wrapped `ErrNotFound`;
`GetProductsPaged` runs `SELECT ... LIMIT $1 OFFSET $2`, i.e. skips
`offset` rows and returns at most `limit` rows in store order;
`DeleteAllProducts` counts the rows and truncates inside one transaction,
returning the count. -/
def healthyRepoOps : RepoOps RepoState where
  getProduct := fun s id =>
    match s.rows.find? (fun p => p.Id == id) with
    | some p => (.ok p, s)
    | none =>
        (.error (wrapErrAfter ErrNotFound
          (": failed to find product " ++ toString id ++ " in DB")), s)
  getAllProducts := fun s => (.ok s.rows, s)
  getProductsPaged := fun s limit offset =>
    (.ok ((s.rows.drop offset.toNat).take limit.toNat), s)
  storeProduct := fun s np =>
    (.ok s.nextId,
      ⟨s.rows ++ [⟨s.nextId, np.Name, np.AdditionalInfo⟩], s.nextId + 1⟩)
  updateProductById := fun s id np =>
    match s.rows.find? (fun p => p.Id == id) with
    | some old =>
        (.ok old,
          ⟨s.rows.map (fun p =>
            if p.Id == id then ⟨p.Id, np.Name, np.AdditionalInfo⟩ else p),
          s.nextId⟩)
    | none =>
        (.error (wrapErrAfter ErrNotFound
          (": failed to find product " ++ toString id ++ " in DB")), s)
  deleteProductById := fun s id =>
    match s.rows.find? (fun p => p.Id == id) with
    | some old =>
        (.ok old, ⟨s.rows.filter (fun p => !(p.Id == id)), s.nextId⟩)
    | none =>
        (.error (wrapErrAfter ErrNotFound
          (": failed to find product " ++ toString id ++ " in DB")), s)
  deleteAllProducts := fun s => (.ok (s.rows.length : Int), ⟨[], s.nextId⟩)

/-! ## Rendering an aggregated result (`ServiceError.Error`) -/

/-- Renderer `ServiceError.Error` (internal/domain/errors.go:57-67): a
`bytes.Buffer` receives the header, then each non-critical message plus a
newline in order, then the critical message plus a newline if present. -/
def ServiceError.Error (se : ServiceError) : String :=
  let buf :=
    se.NonCriticalErrors.foldl
      (fun acc e => acc ++ e.message ++ "\n") "Service error(s)\n:"
  match se.CriticalError with
  | some c => buf ++ c.message ++ "\n"
  | none => buf

/-- The rendering shape the spec describes: all non-critical messages in
detection order, then the critical message if present, one per line and
nothing more.  (Stated from the words of the spec, for comparison with
`ServiceError.Error`.) -/
def specRenderedText (se : ServiceError) : String :=
  String.join (se.NonCriticalErrors.map (fun e => e.message ++ "\n")) ++
    (match se.CriticalError with
     | some c => c.message ++ "\n"
     | none => "")

/-! ## Observation helpers and concrete fixtures -/

/-- Whether a backend call goes to the repository (the store) rather than
the cache. -/
def Call.touchesRepo : Call → Bool
  | .dbGet _ | .dbGetAll | .dbGetPaged _ _ | .dbStore _
  | .dbUpdate _ _ | .dbDelete _ | .dbDeleteAll => true
  | _ => false

/-- The non-critical error list carried by a service result (empty when the
returned `*ServiceError` is `nil`). -/
def nonCriticalOf {α σc σr : Type} (r : SvcResult α σc σr) : List GoError :=
  match r.err with
  | none => []
  | some se => se.NonCriticalErrors

/-- A marshaller that fails, exercising the `json.Marshal` error branch of
`GetProductById`. -/
def failingMarshal (e : GoError) : Product → Except GoError String :=
  fun _ => .error e

/-- Example store of the spec: products `44 ↦ ("A", "infoA")`. -/
def store44 : RepoState := ⟨[⟨44, "A", "infoA"⟩], 45⟩

/-- The cache-miss error the healthy cache reports for id 44. -/
def cacheMiss44 : GoError :=
  wrapErrAfter ErrNotFound ": failed to find product 44 in cache"

/-- A healthy cache holding a payload for id 7 only. -/
def cacheWith7 : CacheState := fun k => if k = 7 then some "payload7" else none

/-- The `GetProductById` run of the example in the spec: id 44 present in the
store, absent from the cache, repopulation write healthy. -/
def run44 : SvcResult (Option String) CacheState RepoState :=
  ResourseService.GetProductById healthyCacheOps healthyRepoOps goMarshal
    emptyCache store44 44

/-- A cache whose backend is unreachable: every operation reports a wrapped
`ErrInternalCache`, as the Redis adapter does on transport errors. -/
def downCacheOps : CacheOps Unit where
  getJSONProductById := fun s _ =>
    (.error (wrapErrAfter ErrInternalCache ": connection refused"), s)
  setProduct := fun s _ =>
    (some (wrapErrAfter ErrInternalCache ": connection refused"), s)
  deleteProductById := fun s _ =>
    (some (wrapErrAfter ErrInternalCache ": connection refused"), s)
  clearCache := fun s =>
    (some (wrapErrAfter ErrInternalCache ": connection refused"), s)

/-- A repository whose backend is unreachable: every operation reports a
wrapped `ErrInternalDb`, as the Postgres adapter does on transport
errors. -/
def downRepoOps : RepoOps Unit where
  getProduct := fun s _ =>
    (.error (wrapErrAfter ErrInternalDb ": connection refused"), s)
  getAllProducts := fun s =>
    (.error (wrapErrAfter ErrInternalDb ": connection refused"), s)
  getProductsPaged := fun s _ _ =>
    (.error (wrapErrAfter ErrInternalDb ": connection refused"), s)
  storeProduct := fun s _ =>
    (.error (wrapErrAfter ErrInternalDb ": connection refused"), s)
  updateProductById := fun s _ _ =>
    (.error (wrapErrAfter ErrInternalDb ": connection refused"), s)
  deleteProductById := fun s _ =>
    (.error (wrapErrAfter ErrInternalDb ": connection refused"), s)
  deleteAllProducts := fun s =>
    (.error (wrapErrAfter ErrInternalDb ": connection refused"), s)

/-- The five-row table used by the pagination test of the repository. -/
def rows5 : List Product :=
  [⟨1, "Test product #1", "Test product #1 info"⟩,
   ⟨3, "Test product #3", "Test product #3 info"⟩,
   ⟨7, "Test product #7", "Test product #7 info"⟩,
   ⟨11, "Test product #11", "Test product #11 info"⟩,
   ⟨12, "Test product #12", "Test product #12 info"⟩]

/-! ## Claim theorems -/

open ResourseService

theorem join_cons_str (s : String) (l : List String) :
    String.join (s :: l) = s ++ String.join l := by
  rw [String.join_eq, String.join_eq, List.map_cons, List.flatten_cons]
  cases s
  rfl

theorem foldl_msg_append (l : List GoError) (init : String) :
    l.foldl (fun acc e => acc ++ e.message ++ "\n") init =
      init ++ String.join (l.map fun e => e.message ++ "\n") := by
  induction l generalizing init with
  | nil => simp [String.join]
  | cons a t ih =>
      rw [List.foldl_cons, ih, List.map_cons, join_cons_str]
      simp [String.append_assoc]

/-- C6: for every id whose cache lookup succeeds, `GetProductById` returns
the cached payload unchanged, with no error of any kind, and does not
invoke the store at all (the call trace is the single cache read and the
repository state is untouched). -/
theorem getProductById_cache_hit_short_circuit
    {σc σr : Type} (C : CacheOps σc) (R : RepoOps σr)
    (marshal : Product → Except GoError String)
    (cs cs' : σc) (rs : σr) (id : Int) (bytes : String)
    (h : C.getJSONProductById cs id = (.ok bytes, cs')) :
    GetProductById C R marshal cs rs id =
      ⟨some bytes, none, cs', rs, [.cacheGetJSON id]⟩ ∧
    ((GetProductById C R marshal cs rs id).calls.all
      (fun c => !c.touchesRepo)) = true := by
  unfold GetProductById
  rw [h]
  exact ⟨rfl, rfl⟩

theorem getProductById_cache_hit_short_circuit_witness :
    healthyCacheOps.getJSONProductById cacheWith7 7 =
      (.ok "payload7", cacheWith7) ∧
    GetProductById healthyCacheOps healthyRepoOps goMarshal
      cacheWith7 (⟨[], 1⟩ : RepoState) 7 =
      ⟨some "payload7", none, cacheWith7, ⟨[], 1⟩, [.cacheGetJSON 7]⟩ :=
  ⟨rfl,
    (getProductById_cache_hit_short_circuit healthyCacheOps healthyRepoOps
      goMarshal cacheWith7 cacheWith7 (⟨[], 1⟩ : RepoState) 7 "payload7"
      rfl).1⟩

/-- C2: in `UpdateProductById` and `DeleteProductById`, a cache
invalidation that reports NotFound still reaches the store and, on store
success, the value from the store is returned with exactly that one non-critical
error; any other cache-invalidation failure prevents the store call (the
trace stops at the cache delete, the repository state is untouched) and is
returned as critical with no value. -/
theorem invalidate_notFound_proceeds_other_errors_critical
    {σc σr : Type} (C : CacheOps σc) (R : RepoOps σr)
    (cs cs1 : σc) (rs rs1 : σr) (id : Int) (np : NewProduct) (ce : GoError)
    (h : C.deleteProductById cs id = (some ce, cs1)) :
    (ce.wrapsNotFound = true →
      (∀ old, R.updateProductById rs id np = (.ok old, rs1) →
        UpdateProductById C R cs rs id np =
          ⟨some old, some ⟨none, [ce]⟩, cs1, rs1,
            [.cacheDelete id, .dbUpdate id np]⟩) ∧
      (∀ old, R.deleteProductById rs id = (.ok old, rs1) →
        DeleteProductById C R cs rs id =
          ⟨some old, some ⟨none, [ce]⟩, cs1, rs1,
            [.cacheDelete id, .dbDelete id]⟩)) ∧
    (ce.wrapsNotFound = false →
      (UpdateProductById C R cs rs id np =
        ⟨none, some ⟨some ce, []⟩, cs1, rs, [.cacheDelete id]⟩ ∧
       DeleteProductById C R cs rs id =
        ⟨none, some ⟨some ce, []⟩, cs1, rs, [.cacheDelete id]⟩)) := by
  constructor
  · intro hnf
    constructor
    · intro old hdb
      unfold UpdateProductById
      rw [h]
      simp [hnf, hdb]
    · intro old hdb
      unfold DeleteProductById
      rw [h]
      simp [hnf, hdb]
  · intro hnf
    constructor
    · unfold UpdateProductById
      rw [h]
      simp [hnf]
    · unfold DeleteProductById
      rw [h]
      simp [hnf]

theorem invalidate_notFound_proceeds_other_errors_critical_witness :
    (wrapErrAfter ErrNotFound ": product with id=4 not found in cache"
      |>.wrapsNotFound) = true ∧
    UpdateProductById healthyCacheOps healthyRepoOps emptyCache
      (⟨[⟨4, "Old", "OldInfo"⟩], 5⟩ : RepoState) 4 ⟨"New", "NewInfo"⟩ =
      ⟨some ⟨4, "Old", "OldInfo"⟩,
        some ⟨none,
          [wrapErrAfter ErrNotFound ": product with id=4 not found in cache"]⟩,
        emptyCache, ⟨[⟨4, "New", "NewInfo"⟩], 5⟩,
        [.cacheDelete 4, .dbUpdate 4 ⟨"New", "NewInfo"⟩]⟩ :=
  ⟨rfl,
    ((invalidate_notFound_proceeds_other_errors_critical healthyCacheOps
        healthyRepoOps emptyCache emptyCache
        (⟨[⟨4, "Old", "OldInfo"⟩], 5⟩ : RepoState)
        (⟨[⟨4, "New", "NewInfo"⟩], 5⟩ : RepoState) 4 ⟨"New", "NewInfo"⟩
        (wrapErrAfter ErrNotFound ": product with id=4 not found in cache")
        rfl).1 rfl).1 ⟨4, "Old", "OldInfo"⟩ rfl⟩

/-- C7: in `CreateProduct`, a store-insert failure is returned as critical
with id 0 and no cache write is attempted (the trace is the store call
alone, the cache state untouched); on store success the store-assigned id
is always returned, a cache-write failure surfacing only as the single
non-critical error. -/
theorem createProduct_store_mandatory_cache_nonblocking
    {σc σr : Type} (C : CacheOps σc) (R : RepoOps σr)
    (cs : σc) (rs : σr) (np : NewProduct) :
    (∀ e rs1, R.storeProduct rs np = (.error e, rs1) →
      CreateProduct C R cs rs np =
        ⟨0, some ⟨some e, []⟩, cs, rs1, [.dbStore np]⟩) ∧
    (∀ id rs1, R.storeProduct rs np = (.ok id, rs1) →
      (∀ cs1,
        C.setProduct cs ⟨id, np.Name, np.AdditionalInfo⟩ = (none, cs1) →
        CreateProduct C R cs rs np =
          ⟨id, none, cs1, rs1,
            [.dbStore np, .cacheSet ⟨id, np.Name, np.AdditionalInfo⟩]⟩) ∧
      (∀ ce cs1,
        C.setProduct cs ⟨id, np.Name, np.AdditionalInfo⟩ = (some ce, cs1) →
        CreateProduct C R cs rs np =
          ⟨id, some ⟨none, [ce]⟩, cs1, rs1,
            [.dbStore np, .cacheSet ⟨id, np.Name, np.AdditionalInfo⟩]⟩)) := by
  constructor
  · intro e rs1 h
    unfold CreateProduct
    rw [h]
  · intro id rs1 h
    constructor
    · intro cs1 hset
      unfold CreateProduct
      rw [h]
      simp [hset]
    · intro ce cs1 hset
      unfold CreateProduct
      rw [h]
      simp [hset]

theorem createProduct_store_mandatory_cache_nonblocking_witness :
    healthyRepoOps.storeProduct (⟨[], 9⟩ : RepoState) ⟨"N", "I"⟩ =
      (.ok 9, ⟨[⟨9, "N", "I"⟩], 10⟩) ∧
    (CreateProduct healthyCacheOps healthyRepoOps emptyCache
      (⟨[], 9⟩ : RepoState) ⟨"N", "I"⟩).value = 9 ∧
    (CreateProduct healthyCacheOps healthyRepoOps emptyCache
      (⟨[], 9⟩ : RepoState) ⟨"N", "I"⟩).err = none :=
  ⟨rfl,
    by
      rw [((createProduct_store_mandatory_cache_nonblocking healthyCacheOps
        healthyRepoOps emptyCache (⟨[], 9⟩ : RepoState) ⟨"N", "I"⟩).2 9
        (⟨[⟨9, "N", "I"⟩], 10⟩ : RepoState) rfl).1
        (fun k => if k = 9 then some (jsonMarshalProduct ⟨9, "N", "I"⟩)
          else emptyCache k) rfl],
    by
      rw [((createProduct_store_mandatory_cache_nonblocking healthyCacheOps
        healthyRepoOps emptyCache (⟨[], 9⟩ : RepoState) ⟨"N", "I"⟩).2 9
        (⟨[⟨9, "N", "I"⟩], 10⟩ : RepoState) rfl).1
        (fun k => if k = 9 then some (jsonMarshalProduct ⟨9, "N", "I"⟩)
          else emptyCache k) rfl]⟩

/-- C10: in `GetProductById`, when the cache lookup fails, the store get
succeeds and serialization then fails, the wrapped marshalling error is
returned as the critical error with a nil value, and the very same error
is also the last entry of the non-critical list — it appears twice in the
result, alongside the earlier cache error. -/
theorem getProductById_marshal_failure_double_report
    {σc σr : Type} (C : CacheOps σc) (R : RepoOps σr)
    (marshal : Product → Except GoError String)
    (cs cs1 cs2 : σc) (rs rs1 : σr) (id : Int)
    (ce em : GoError) (p : Product) (setErr : Option GoError)
    (hc : C.getJSONProductById cs id = (.error ce, cs1))
    (hdb : R.getProduct rs id = (.ok p, rs1))
    (hset : C.setProduct cs1 p = (setErr, cs2))
    (hm : marshal p = .error em) :
    GetProductById C R marshal cs rs id =
      ⟨none,
        some ⟨some (wrapErrBefore "service layer error: " em),
          appendOpt [ce] setErr ++ [wrapErrBefore "service layer error: " em]⟩,
        cs2, rs1, [.cacheGetJSON id, .dbGet id, .cacheSet p]⟩ ∧
    (∀ se, (GetProductById C R marshal cs rs id).err = some se →
      se.CriticalError = some (wrapErrBefore "service layer error: " em) ∧
      wrapErrBefore "service layer error: " em ∈ se.NonCriticalErrors ∧
      ce ∈ se.NonCriticalErrors ∧
      (GetProductById C R marshal cs rs id).value = none) := by
  have hmain :
      GetProductById C R marshal cs rs id =
        ⟨none,
          some ⟨some (wrapErrBefore "service layer error: " em),
            appendOpt [ce] setErr ++
              [wrapErrBefore "service layer error: " em]⟩,
          cs2, rs1, [.cacheGetJSON id, .dbGet id, .cacheSet p]⟩ := by
    unfold GetProductById
    rw [hc]
    simp [hdb, hset, hm]
  refine ⟨hmain, ?_⟩
  intro se hse
  rw [hmain] at hse
  simp only [Option.some.injEq] at hse
  subst hse
  refine ⟨rfl, ?_, ?_, by rw [hmain]⟩
  · exact List.mem_append_right _ (List.mem_singleton.mpr rfl)
  · cases setErr <;> simp [appendOpt]

/-- C8 counterexample: at a result with one non-critical error `"x"` and no
critical error, `ServiceError.Error` does not produce only the messages one
per line — it emits the shape described by the spec only after a fixed
header, so the claimed "exactly this byte shape (nothing more)" fails. -/
theorem error_rendering_exact_shape_cex :
    ServiceError.Error ⟨none, [⟨"x", false⟩]⟩ ≠
      specRenderedText ⟨none, [⟨"x", false⟩]⟩ := by decide

/-- C8 (amended): rendering a result as text emits the fixed header
`"Service error(s)\n:"` and then exactly the shape the spec describes: all non-critical
messages in detection order followed by the critical message if present,
one message per line and nothing more. -/
theorem error_rendering_header_then_messages (se : ServiceError) :
    ServiceError.Error se = "Service error(s)\n:" ++ specRenderedText se := by
  obtain ⟨crit, ncl⟩ := se
  cases crit with
  | none =>
      show ncl.foldl (fun acc e => acc ++ e.message ++ "\n")
          "Service error(s)\n:" =
        "Service error(s)\n:" ++
          (String.join (ncl.map fun e => e.message ++ "\n") ++ "")
      rw [foldl_msg_append, String.append_empty]
  | some c =>
      show ncl.foldl (fun acc e => acc ++ e.message ++ "\n")
          "Service error(s)\n:" ++ c.message ++ "\n" =
        "Service error(s)\n:" ++
          (String.join (ncl.map fun e => e.message ++ "\n") ++
            (c.message ++ "\n"))
      rw [foldl_msg_append]
      simp [String.append_assoc]

/-- C1 counterexample: with the own example of the spec — store containing
`44 ↦ ("A", "infoA")`, healthy cache with no entry for 44 — the call
returns the product of the store serialized, the repopulation write succeeds,
and yet the result carries one non-critical error (the cache miss), not
zero. -/
theorem cacheMiss_nonCritical_not_zero_cex :
    run44.value =
      some "\x7b\"id\":44,\"name\":\"A\",\"additionalInfo\":\"infoA\"\x7d" ∧
    nonCriticalOf run44 = [cacheMiss44] ∧ nonCriticalOf run44 ≠ [] :=
  ⟨rfl, rfl, by decide⟩

/-- C1 (amended): for every id present in the store but absent from the
cache, `GetProductById` returns the stored product serialized with no
critical error, and carries exactly one non-critical error — the cache-miss
error itself — when the repopulation write succeeds, and exactly two (the
cache-miss error then the repopulation error) when the repopulation write
fails. -/
theorem getProductById_cacheMiss_error_accounting
    {σc σr : Type} (C : CacheOps σc) (R : RepoOps σr)
    (marshal : Product → Except GoError String)
    (cs cs1 : σc) (rs rs1 : σr) (id : Int)
    (ce : GoError) (p : Product) (s : String)
    (hc : C.getJSONProductById cs id = (.error ce, cs1))
    (hdb : R.getProduct rs id = (.ok p, rs1))
    (hm : marshal p = .ok s) :
    (∀ cs2, C.setProduct cs1 p = (none, cs2) →
      GetProductById C R marshal cs rs id =
        ⟨some s, some ⟨none, [ce]⟩, cs2, rs1,
          [.cacheGetJSON id, .dbGet id, .cacheSet p]⟩) ∧
    (∀ e2 cs2, C.setProduct cs1 p = (some e2, cs2) →
      GetProductById C R marshal cs rs id =
        ⟨some s, some ⟨none, [ce, e2]⟩, cs2, rs1,
          [.cacheGetJSON id, .dbGet id, .cacheSet p]⟩) := by
  constructor
  · intro cs2 hset
    unfold GetProductById
    rw [hc]
    simp [hdb, hset, hm, appendOpt]
  · intro e2 cs2 hset
    unfold GetProductById
    rw [hc]
    simp [hdb, hset, hm, appendOpt]

theorem getProductById_cacheMiss_error_accounting_witness :
    run44 =
      ⟨some "\x7b\"id\":44,\"name\":\"A\",\"additionalInfo\":\"infoA\"\x7d",
        some ⟨none, [cacheMiss44]⟩,
        (fun k => if k = 44 then
            some (jsonMarshalProduct ⟨44, "A", "infoA"⟩)
          else emptyCache k),
        store44, [.cacheGetJSON 44, .dbGet 44, .cacheSet ⟨44, "A", "infoA"⟩]⟩ :=
  (getProductById_cacheMiss_error_accounting healthyCacheOps healthyRepoOps
    goMarshal emptyCache emptyCache store44 store44 44 cacheMiss44
    ⟨44, "A", "infoA"⟩
    "\x7b\"id\":44,\"name\":\"A\",\"additionalInfo\":\"infoA\"\x7d"
    rfl rfl rfl).1
    (fun k => if k = 44 then some (jsonMarshalProduct ⟨44, "A", "infoA"⟩)
      else emptyCache k) rfl

/-- C4: `DeleteAllProducts` clears the cache first — a cache-clear failure
is critical, returns count zero and never reaches the store (state and
trace untouched); with the cache step healthy, the healthy
count-and-truncate transaction removes all rows and the returned count
equals the number of rows that were in (and are now gone from) the table;
a store failure after a successful cache clear returns zero with the store
error as critical. -/
theorem deleteAllProducts_cache_first_atomic_count :
    (∀ {σc σr : Type} (C : CacheOps σc) (R : RepoOps σr) (cs cs1 : σc)
        (rs : σr) (e : GoError),
      C.clearCache cs = (some e, cs1) →
      DeleteAllProducts C R cs rs =
        ⟨0, some ⟨some e, []⟩, cs1, rs, [.cacheClear]⟩) ∧
    (∀ (cs : CacheState) (rows : List Product) (n : Int),
      DeleteAllProducts healthyCacheOps healthyRepoOps cs ⟨rows, n⟩ =
        ⟨(rows.length : Int), none, emptyCache, ⟨[], n⟩,
          [.cacheClear, .dbDeleteAll]⟩) ∧
    (∀ {σc σr : Type} (C : CacheOps σc) (R : RepoOps σr) (cs cs1 : σc)
        (rs rs1 : σr) (de : GoError),
      C.clearCache cs = (none, cs1) →
      R.deleteAllProducts rs = (.error de, rs1) →
      DeleteAllProducts C R cs rs =
        ⟨0, some ⟨some de, []⟩, cs1, rs1, [.cacheClear, .dbDeleteAll]⟩) := by
  refine ⟨?_, ?_, ?_⟩
  · intro σc σr C R cs cs1 rs e h
    unfold DeleteAllProducts
    rw [h]
  · intro cs rows n
    rfl
  · intro σc σr C R cs cs1 rs rs1 de h hdb
    unfold DeleteAllProducts
    rw [h]
    simp [hdb]

theorem deleteAllProducts_cache_first_atomic_count_witness :
    DeleteAllProducts downCacheOps healthyRepoOps () store44 =
      ⟨0, some ⟨some (wrapErrAfter ErrInternalCache ": connection refused"),
        []⟩, (), store44, [.cacheClear]⟩ :=
  deleteAllProducts_cache_first_atomic_count.1 downCacheOps healthyRepoOps
    () () store44 (wrapErrAfter ErrInternalCache ": connection refused") rfl

theorem getProductById_marshal_failure_double_report_witness :
    GetProductById healthyCacheOps healthyRepoOps
      (failingMarshal ⟨"json: marshal fail", false⟩)
      emptyCache store44 44 =
      ⟨none,
        some ⟨some (wrapErrBefore "service layer error: "
            ⟨"json: marshal fail", false⟩),
          [cacheMiss44,
            wrapErrBefore "service layer error: "
              ⟨"json: marshal fail", false⟩]⟩,
        (fun k => if k = 44 then
            some (jsonMarshalProduct ⟨44, "A", "infoA"⟩)
          else emptyCache k),
        store44, [.cacheGetJSON 44, .dbGet 44, .cacheSet ⟨44, "A", "infoA"⟩]⟩ :=
  (getProductById_marshal_failure_double_report healthyCacheOps
    healthyRepoOps (failingMarshal ⟨"json: marshal fail", false⟩)
    emptyCache emptyCache
    (fun k => if k = 44 then some (jsonMarshalProduct ⟨44, "A", "infoA"⟩)
      else emptyCache k)
    store44 store44 44 cacheMiss44 ⟨"json: marshal fail", false⟩
    ⟨44, "A", "infoA"⟩ none rfl rfl rfl rfl).1

/-- C3: for every limit ≥ 1 and offset ≥ 0, the paged listing over a
healthy store skips exactly `offset` rows, returns at most `limit` rows
in store order (each returned position `i` holds row `offset + i`), uses
the `limit` of the caller as the bound and `offset` as the skip count, never
errors, and a page beyond the available rows is a valid empty list. -/
theorem getProductsPaged_pagination_semantics
    (cs : CacheState) (rows : List Product) (n : Int) (limit offset : Int)
    (hl : 1 ≤ limit) (ho : 0 ≤ offset) :
    ∃ l, (GetProductsPaged healthyCacheOps healthyRepoOps cs
        (⟨rows, n⟩ : RepoState) limit offset).value = some l ∧
      (GetProductsPaged healthyCacheOps healthyRepoOps cs
        (⟨rows, n⟩ : RepoState) limit offset).err = none ∧
      l.length = min limit.toNat (rows.length - offset.toNat) ∧
      l.Sublist rows ∧
      (∀ i : Nat, i < l.length → l.get? i = rows.get? (offset.toNat + i)) ∧
      (rows.length ≤ offset.toNat → l = []) := by
  refine ⟨(rows.drop offset.toNat).take limit.toNat, rfl, rfl, ?_, ?_, ?_, ?_⟩
  · simp [List.length_take, List.length_drop]
  · exact (List.take_sublist _ _).trans (List.drop_sublist _ _)
  · intro i hi
    have hlen : i < min limit.toNat (rows.length - offset.toNat) := by
      simpa [List.length_take, List.length_drop] using hi
    rw [List.get?_take (by omega), List.get?_drop]
  · intro h
    rw [List.drop_eq_nil_of_le h, List.take_nil]

theorem getProductsPaged_pagination_semantics_witness :
    (1 : Int) ≤ 2 ∧ (0 : Int) ≤ 2 ∧
    (∃ l, (GetProductsPaged healthyCacheOps healthyRepoOps emptyCache
        (⟨rows5, 13⟩ : RepoState) 2 2).value = some l ∧
      (GetProductsPaged healthyCacheOps healthyRepoOps emptyCache
        (⟨rows5, 13⟩ : RepoState) 2 2).err = none ∧
      l.length = min (2 : Int).toNat (rows5.length - (2 : Int).toNat) ∧
      l.Sublist rows5 ∧
      (∀ i : Nat, i < l.length →
        l.get? i = rows5.get? ((2 : Int).toNat + i)) ∧
      (rows5.length ≤ (2 : Int).toNat → l = [])) :=
  ⟨by decide, by decide,
    getProductsPaged_pagination_semantics emptyCache rows5 13 2 2
      (by decide) (by decide)⟩

/-- C5: for every `NewProduct` and healthy backends, `CreateProduct`
followed immediately by `GetProductById` on the returned id yields the
submitted name and additionalInfo serialized with the store-assigned id
attached, with no error, and the read is served by the cache alone — the
call trace of the read is the single cache lookup, so the get of the store is
never invoked. -/
theorem create_then_get_roundtrip_cache_fast_path
    (np : NewProduct) (cs : CacheState) (rows : List Product) (n : Int) :
    (CreateProduct healthyCacheOps healthyRepoOps cs
      (⟨rows, n⟩ : RepoState) np).value = n ∧
    (CreateProduct healthyCacheOps healthyRepoOps cs
      (⟨rows, n⟩ : RepoState) np).err = none ∧
    (GetProductById healthyCacheOps healthyRepoOps goMarshal
      (CreateProduct healthyCacheOps healthyRepoOps cs
        (⟨rows, n⟩ : RepoState) np).cacheState
      (CreateProduct healthyCacheOps healthyRepoOps cs
        (⟨rows, n⟩ : RepoState) np).repoState
      n).value =
      some (jsonMarshalProduct ⟨n, np.Name, np.AdditionalInfo⟩) ∧
    (GetProductById healthyCacheOps healthyRepoOps goMarshal
      (CreateProduct healthyCacheOps healthyRepoOps cs
        (⟨rows, n⟩ : RepoState) np).cacheState
      (CreateProduct healthyCacheOps healthyRepoOps cs
        (⟨rows, n⟩ : RepoState) np).repoState
      n).err = none ∧
    (GetProductById healthyCacheOps healthyRepoOps goMarshal
      (CreateProduct healthyCacheOps healthyRepoOps cs
        (⟨rows, n⟩ : RepoState) np).cacheState
      (CreateProduct healthyCacheOps healthyRepoOps cs
        (⟨rows, n⟩ : RepoState) np).repoState
      n).calls = [.cacheGetJSON n] := by
  refine ⟨rfl, rfl, ?_, ?_, ?_⟩ <;>
    simp [CreateProduct, GetProductById, healthyCacheOps, healthyRepoOps]

/-- C9: across all seven service operations and all backend outcomes, a
result carrying a critical error carries a nil (or zero) value, and a
result carrying only non-critical errors carries a usable value (the
value the backend produced; for `CreateProduct`, the id the store assigned). -/
theorem critical_implies_no_value_invariant :
    (∀ {σc σr : Type} (C : CacheOps σc) (R : RepoOps σr)
        (m : Product → Except GoError String) (cs : σc) (rs : σr)
        (id : Int) (se : ServiceError),
      (GetProductById C R m cs rs id).err = some se →
      ((se.CriticalError ≠ none →
         (GetProductById C R m cs rs id).value = none) ∧
       (se.CriticalError = none →
         (GetProductById C R m cs rs id).value ≠ none))) ∧
    (∀ {σc σr : Type} (C : CacheOps σc) (R : RepoOps σr) (cs : σc) (rs : σr)
        (se : ServiceError),
      (GetAllProducts C R cs rs).err = some se →
      se.CriticalError ≠ none ∧ (GetAllProducts C R cs rs).value = none) ∧
    (∀ {σc σr : Type} (C : CacheOps σc) (R : RepoOps σr) (cs : σc) (rs : σr)
        (limit offset : Int) (se : ServiceError),
      (GetProductsPaged C R cs rs limit offset).err = some se →
      se.CriticalError ≠ none ∧
        (GetProductsPaged C R cs rs limit offset).value = none) ∧
    (∀ {σc σr : Type} (C : CacheOps σc) (R : RepoOps σr) (cs : σc) (rs : σr)
        (np : NewProduct) (se : ServiceError),
      (CreateProduct C R cs rs np).err = some se →
      ((se.CriticalError ≠ none → (CreateProduct C R cs rs np).value = 0) ∧
       (se.CriticalError = none →
         ∃ id rs1, R.storeProduct rs np = (.ok id, rs1) ∧
           (CreateProduct C R cs rs np).value = id))) ∧
    (∀ {σc σr : Type} (C : CacheOps σc) (R : RepoOps σr) (cs : σc) (rs : σr)
        (id : Int) (np : NewProduct) (se : ServiceError),
      (UpdateProductById C R cs rs id np).err = some se →
      ((se.CriticalError ≠ none →
         (UpdateProductById C R cs rs id np).value = none) ∧
       (se.CriticalError = none →
         (UpdateProductById C R cs rs id np).value ≠ none))) ∧
    (∀ {σc σr : Type} (C : CacheOps σc) (R : RepoOps σr) (cs : σc) (rs : σr)
        (id : Int) (se : ServiceError),
      (DeleteProductById C R cs rs id).err = some se →
      ((se.CriticalError ≠ none →
         (DeleteProductById C R cs rs id).value = none) ∧
       (se.CriticalError = none →
         (DeleteProductById C R cs rs id).value ≠ none))) ∧
    (∀ {σc σr : Type} (C : CacheOps σc) (R : RepoOps σr) (cs : σc) (rs : σr)
        (se : ServiceError),
      (DeleteAllProducts C R cs rs).err = some se →
      se.CriticalError ≠ none ∧ (DeleteAllProducts C R cs rs).value = 0) := by
  refine ⟨?_, ?_, ?_, ?_, ?_, ?_, ?_⟩
  · intro σc σr C R m cs rs id se h
    rcases hc : C.getJSONProductById cs id with ⟨cr, cs1⟩
    cases cr with
    | ok bytes =>
        unfold GetProductById at h
        rw [hc] at h
        simp at h
    | error ce =>
        rcases hdb : R.getProduct rs id with ⟨dbr, rs1⟩
        cases dbr with
        | error de =>
            have hr : GetProductById C R m cs rs id =
                ⟨none, some ⟨some de, [ce]⟩, cs1, rs1,
                  [.cacheGetJSON id, .dbGet id]⟩ := by
              unfold GetProductById
              rw [hc]
              simp [hdb]
            rw [hr] at h ⊢
            injection h with h
            subst h
            simp
        | ok p =>
            rcases hset : C.setProduct cs1 p with ⟨serr, cs2⟩
            rcases hm : m p with em | s
            · have hr : GetProductById C R m cs rs id =
                  ⟨none,
                    some ⟨some (wrapErrBefore "service layer error: " em),
                      appendOpt [ce] serr ++
                        [wrapErrBefore "service layer error: " em]⟩,
                    cs2, rs1,
                    [.cacheGetJSON id, .dbGet id, .cacheSet p]⟩ := by
                unfold GetProductById
                rw [hc]
                simp [hdb, hset, hm]
              rw [hr] at h ⊢
              injection h with h
              subst h
              simp
            · have hr : GetProductById C R m cs rs id =
                  ⟨some s, some ⟨none, appendOpt [ce] serr⟩, cs2, rs1,
                    [.cacheGetJSON id, .dbGet id, .cacheSet p]⟩ := by
                unfold GetProductById
                rw [hc]
                cases serr <;> simp [hdb, hset, hm, appendOpt]
              rw [hr] at h ⊢
              injection h with h
              subst h
              simp
  · intro σc σr C R cs rs se h
    rcases hdb : R.getAllProducts rs with ⟨dbr, rs1⟩
    cases dbr with
    | error de =>
        have hr : GetAllProducts C R cs rs =
            ⟨none, some ⟨some de, []⟩, cs, rs1, [.dbGetAll]⟩ := by
          unfold GetAllProducts
          rw [hdb]
        rw [hr] at h ⊢
        injection h with h
        subst h
        simp
    | ok l =>
        unfold GetAllProducts at h
        rw [hdb] at h
        simp at h
  · intro σc σr C R cs rs limit offset se h
    rcases hdb : R.getProductsPaged rs limit offset with ⟨dbr, rs1⟩
    cases dbr with
    | error de =>
        have hr : GetProductsPaged C R cs rs limit offset =
            ⟨none, some ⟨some de, []⟩, cs, rs1,
              [.dbGetPaged limit offset]⟩ := by
          unfold GetProductsPaged
          rw [hdb]
        rw [hr] at h ⊢
        injection h with h
        subst h
        simp
    | ok l =>
        unfold GetProductsPaged at h
        rw [hdb] at h
        simp at h
  · intro σc σr C R cs rs np se h
    rcases hdb : R.storeProduct rs np with ⟨dbr, rs1⟩
    cases dbr with
    | error de =>
        have hr : CreateProduct C R cs rs np =
            ⟨0, some ⟨some de, []⟩, cs, rs1, [.dbStore np]⟩ := by
          unfold CreateProduct
          rw [hdb]
        rw [hr] at h ⊢
        injection h with h
        subst h
        simp
    | ok idv =>
        rcases hset : C.setProduct cs ⟨idv, np.Name, np.AdditionalInfo⟩
          with ⟨serr, cs1⟩
        cases serr with
        | none =>
            unfold CreateProduct at h
            rw [hdb] at h
            simp [hset] at h
        | some ce =>
            have hr : CreateProduct C R cs rs np =
                ⟨idv, some ⟨none, [ce]⟩, cs1, rs1,
                  [.dbStore np,
                    .cacheSet ⟨idv, np.Name, np.AdditionalInfo⟩]⟩ := by
              unfold CreateProduct
              rw [hdb]
              simp [hset]
            rw [hr] at h ⊢
            injection h with h
            subst h
            refine ⟨by simp, ?_⟩
            intro _
            exact ⟨idv, rs1, rfl, rfl⟩
  · intro σc σr C R cs rs id np se h
    rcases hcd : C.deleteProductById cs id with ⟨cdr, cs1⟩
    cases cdr with
    | some ce =>
        rcases hwn : ce.wrapsNotFound with _ | _
        · have hr : UpdateProductById C R cs rs id np =
              ⟨none, some ⟨some ce, []⟩, cs1, rs, [.cacheDelete id]⟩ := by
            unfold UpdateProductById
            rw [hcd]
            simp [hwn]
          rw [hr] at h ⊢
          injection h with h
          subst h
          simp
        · rcases hdb : R.updateProductById rs id np with ⟨dbr, rs1⟩
          cases dbr with
          | error de =>
              have hr : UpdateProductById C R cs rs id np =
                  ⟨none, some ⟨some de, [ce]⟩, cs1, rs1,
                    [.cacheDelete id, .dbUpdate id np]⟩ := by
                unfold UpdateProductById
                rw [hcd]
                simp [hwn, hdb]
              rw [hr] at h ⊢
              injection h with h
              subst h
              simp
          | ok old =>
              have hr : UpdateProductById C R cs rs id np =
                  ⟨some old, some ⟨none, [ce]⟩, cs1, rs1,
                    [.cacheDelete id, .dbUpdate id np]⟩ := by
                unfold UpdateProductById
                rw [hcd]
                simp [hwn, hdb]
              rw [hr] at h ⊢
              injection h with h
              subst h
              simp
    | none =>
        rcases hdb : R.updateProductById rs id np with ⟨dbr, rs1⟩
        cases dbr with
        | error de =>
            have hr : UpdateProductById C R cs rs id np =
                ⟨none, some ⟨some de, []⟩, cs1, rs1,
                  [.cacheDelete id, .dbUpdate id np]⟩ := by
              unfold UpdateProductById
              rw [hcd]
              simp [hdb]
            rw [hr] at h ⊢
            injection h with h
            subst h
            simp
        | ok old =>
            unfold UpdateProductById at h
            rw [hcd] at h
            simp [hdb] at h
  · intro σc σr C R cs rs id se h
    rcases hcd : C.deleteProductById cs id with ⟨cdr, cs1⟩
    cases cdr with
    | some ce =>
        rcases hwn : ce.wrapsNotFound with _ | _
        · have hr : DeleteProductById C R cs rs id =
              ⟨none, some ⟨some ce, []⟩, cs1, rs, [.cacheDelete id]⟩ := by
            unfold DeleteProductById
            rw [hcd]
            simp [hwn]
          rw [hr] at h ⊢
          injection h with h
          subst h
          simp
        · rcases hdb : R.deleteProductById rs id with ⟨dbr, rs1⟩
          cases dbr with
          | error de =>
              have hr : DeleteProductById C R cs rs id =
                  ⟨none, some ⟨some de, [ce]⟩, cs1, rs1,
                    [.cacheDelete id, .dbDelete id]⟩ := by
                unfold DeleteProductById
                rw [hcd]
                simp [hwn, hdb]
              rw [hr] at h ⊢
              injection h with h
              subst h
              simp
          | ok old =>
              have hr : DeleteProductById C R cs rs id =
                  ⟨some old, some ⟨none, [ce]⟩, cs1, rs1,
                    [.cacheDelete id, .dbDelete id]⟩ := by
                unfold DeleteProductById
                rw [hcd]
                simp [hwn, hdb]
              rw [hr] at h ⊢
              injection h with h
              subst h
              simp
    | none =>
        rcases hdb : R.deleteProductById rs id with ⟨dbr, rs1⟩
        cases dbr with
        | error de =>
            have hr : DeleteProductById C R cs rs id =
                ⟨none, some ⟨some de, []⟩, cs1, rs1,
                  [.cacheDelete id, .dbDelete id]⟩ := by
              unfold DeleteProductById
              rw [hcd]
              simp [hdb]
            rw [hr] at h ⊢
            injection h with h
            subst h
            simp
        | ok old =>
            unfold DeleteProductById at h
            rw [hcd] at h
            simp [hdb] at h
  · intro σc σr C R cs rs se h
    rcases hcc : C.clearCache cs with ⟨ccr, cs1⟩
    cases ccr with
    | some ce =>
        have hr : DeleteAllProducts C R cs rs =
            ⟨0, some ⟨some ce, []⟩, cs1, rs, [.cacheClear]⟩ := by
          unfold DeleteAllProducts
          rw [hcc]
        rw [hr] at h ⊢
        injection h with h
        subst h
        simp
    | none =>
        rcases hdb : R.deleteAllProducts rs with ⟨dbr, rs1⟩
        cases dbr with
        | error de =>
            have hr : DeleteAllProducts C R cs rs =
                ⟨0, some ⟨some de, []⟩, cs1, rs1,
                  [.cacheClear, .dbDeleteAll]⟩ := by
              unfold DeleteAllProducts
              rw [hcc]
              simp [hdb]
            rw [hr] at h ⊢
            injection h with h
            subst h
            simp
        | ok cnt =>
            unfold DeleteAllProducts at h
            rw [hcc] at h
            simp [hdb] at h

theorem critical_implies_no_value_invariant_witness :
    (GetProductById downCacheOps downRepoOps goMarshal () () 1).value =
      none :=
  (critical_implies_no_value_invariant.1 downCacheOps downRepoOps goMarshal
    () () 1
    ⟨some (wrapErrAfter ErrInternalDb ": connection refused"),
      [wrapErrAfter ErrInternalCache ": connection refused"]⟩ rfl).1
    (by simp)

end SimplerGo
